import Mathlib

/-!
Verification of the retrieval core of `incubator-hugegraph-ai`
(`hugegraph-llm`), shallowly embedding:

* `hugegraph_llm/indices/vector_index.py` — `VectorIndex` over a faiss
  `IndexFlatL2` store (dimension plus an insertion-ordered vector list)
  and a parallel Python list of properties.  Vector coordinates are
  modelled as `Int`; squared-L2 distance is exact on them.  A raised
  Python exception is modelled as `none`.
* `hugegraph_llm/demo/rag_demo/rag_block.py` (`rag_answer`) and
  `hugegraph_llm/demo/rag_web_demo.py` (`graph_rag`, `build_kg`) — the
  channel-selection guard, the reranker-degradation surfacing, and the
  build-mode policy table.
* `hugegraph_llm/operators/llm_op/info_extract.py` — schema-mode
  triple extraction and the `_filter_long_name` bound on id lengths.

faiss semantics embedded here (from the faiss flat-index contract used
by the source): `add` requires a non-empty rectangular batch whose row
width equals the index dimension (numpy/faiss raise otherwise);
`search` requires the query width to equal the dimension and `k ≥ 1`,
returns the indices of the `k` nearest stored vectors in ascending
squared-L2 order, padding with `-1` when fewer than `k` vectors are
stored.  Ties are determinized by lower index first.
-/

/-- Squared Euclidean (L2) distance used by `faiss.IndexFlatL2`. -/
def sqDist (u v : List Int) : Int :=
  ((u.zip v).map (fun p => (p.1 - p.2) * (p.1 - p.2))).sum

/-- Score every stored vector against the query, tagging each with its
offset: the `(i, d(x_i, q))` table a flat faiss index scans. -/
def scoreFrom (q : List Int) : Nat → List (List Int) → List (Nat × Int)
  | _, [] => []
  | i, v :: vs => (i, sqDist v q) :: scoreFrom q (i + 1) vs

/-- Ordering of scored entries: strictly smaller distance first, ties
broken by the smaller offset (determinization of the faiss heap). -/
def pairLe (a b : Nat × Int) : Prop :=
  a.2 < b.2 ∨ (a.2 = b.2 ∧ a.1 ≤ b.1)

instance : DecidableRel pairLe := fun a b => by
  unfold pairLe; infer_instance

instance : IsTotal (Nat × Int) pairLe :=
  ⟨fun a b => by unfold pairLe; omega⟩

instance : IsTrans (Nat × Int) pairLe :=
  ⟨fun a b c => by unfold pairLe; omega⟩

/-- `faiss.IndexFlatL2.search` on one query: the offsets of the `k`
nearest stored vectors in ascending squared-distance order, padded to
length `k` with the placeholder `-1` when the index holds fewer than
`k` vectors. -/
def faissSearch (vecs : List (List Int)) (q : List Int) (k : Nat) : List Int :=
  let sorted := List.insertionSort pairLe (scoreFrom q 0 vecs)
  (sorted.take k).map (fun p => Int.ofNat p.1) ++
    List.replicate (k - sorted.length) (-1)

/-- Python list subscript `xs[i]`: negative `i` counts from the end;
out-of-range access raises `IndexError`, modelled as `none`. -/
def pyGet {α : Type} (xs : List α) (i : Int) : Option α :=
  let j := if i < 0 then i + xs.length else i
  if 0 ≤ j ∧ j < xs.length then xs.get? j.toNat else none

/-- `VectorIndex` (vector_index.py): a faiss `IndexFlatL2` (dimension
plus the stored vectors, flattened here into `dim`/`vectors`) and the
parallel Python list `properties`. -/
structure VectorIndex (α : Type) where
  dim : Nat
  vectors : List (List Int)
  properties : List α
deriving DecidableEq

/-- `VectorIndex.__init__(embed_dim)`: a fresh `IndexFlatL2(embed_dim)`
and an empty properties list. -/
def VectorIndex.init (α : Type) (embed_dim : Nat) : VectorIndex α :=
  ⟨embed_dim, [], []⟩

/-- `VectorIndex.add(vectors, props)`: `self.index.add(np.array(vectors))`
then `self.properties.extend(props)`.  numpy/faiss raise (`none`) when
the batch is empty or some row's width differs from the index
dimension; no comparison of `len(vectors)` with `len(props)` is made. -/
def VectorIndex.add {α : Type} (idx : VectorIndex α)
    (vectors : List (List Int)) (props : List α) : Option (VectorIndex α) :=
  if vectors ≠ [] ∧ ∀ v ∈ vectors, v.length = idx.dim then
    some ⟨idx.dim, idx.vectors ++ vectors, idx.properties ++ props⟩
  else none

/-- `VectorIndex.search(query_vector, top_k)`: faiss search (raising on
a width mismatch or `top_k < 1`), then `self.properties[i]` collected
for each returned offset — including the `-1` placeholders, which go
through Python negative indexing. -/
def VectorIndex.search {α : Type} (idx : VectorIndex α)
    (query_vector : List Int) (top_k : Nat) : Option (List α) :=
  if query_vector.length = idx.dim ∧ 1 ≤ top_k then
    (faissSearch idx.vectors query_vector top_k).mapM (pyGet idx.properties)
  else none

/-- The on-disk faiss payload: the dimension `d` and the stored
vectors, as `faiss.write_index` records them. -/
structure FaissIndexFile where
  d : Nat
  xb : List (List Int)
deriving DecidableEq

/-- `VectorIndex.to_index_file(index_file, properties_file)`: writes
the faiss payload and pickles the properties list; the two produced
payloads, serialization assumed faithful. -/
def VectorIndex.to_index_file {α : Type} (idx : VectorIndex α) :
    FaissIndexFile × List α :=
  (⟨idx.dim, idx.vectors⟩, idx.properties)

/-- `VectorIndex.from_index_file(index_file, properties_file)`: reads
the faiss payload, recovers `embed_dim` from it, unpickles the
properties, and installs both without any cross-check. -/
def VectorIndex.from_index_file {α : Type} (index_file : FaissIndexFile)
    (properties_file : List α) : VectorIndex α :=
  let embed_dim := index_file.d
  ⟨embed_dim, index_file.xb, properties_file⟩

/-- `from_index_file` seen through the file system: a missing or
unreadable file makes `faiss.read_index` / `open` raise (`none`
input); two readable payloads are installed unconditionally. -/
def fromIndexFiles {α : Type} (index_file : Option FaissIndexFile)
    (properties_file : Option (List α)) : Option (VectorIndex α) :=
  match index_file, properties_file with
  | some f, some p => some (VectorIndex.from_index_file f p)
  | _, _ => none

/-! ### Helper lemmas about the embedded faiss search -/

theorem scoreFrom_length (q : List Int) :
    ∀ (i : Nat) (vs : List (List Int)), (scoreFrom q i vs).length = vs.length
  | _, [] => rfl
  | i, _ :: vs => by
    simp [scoreFrom, scoreFrom_length q (i + 1) vs]

theorem scoreFrom_mem (q : List Int) :
    ∀ (vs : List (List Int)) (i : Nat), ∀ x ∈ scoreFrom q i vs,
      i ≤ x.1 ∧ x.1 - i < vs.length ∧ x.2 = sqDist (vs.getD (x.1 - i) []) q
  | [], _, x, hx => by simp [scoreFrom] at hx
  | v :: vs, i, x, hx => by
    simp only [scoreFrom, List.mem_cons] at hx
    rcases hx with rfl | hx
    · simp
    · obtain ⟨h1, h2, h3⟩ := scoreFrom_mem q vs (i + 1) x hx
      refine ⟨by omega, by simp only [List.length_cons]; omega, ?_⟩
      have hx1 : x.1 - i = (x.1 - (i + 1)) + 1 := by omega
      rw [hx1, List.getD_cons_succ]
      exact h3

theorem pyGet_nat {α : Type} [Inhabited α] (props : List α) (i : Nat)
    (h : i < props.length) :
    pyGet props (Int.ofNat i) = some (props.getD i default) := by
  simp only [pyGet]
  have h0 : ¬ (Int.ofNat i < 0) := by
    simp only [Int.ofNat_eq_coe]; omega
  rw [if_neg h0]
  have hcond : (0 : Int) ≤ Int.ofNat i ∧ Int.ofNat i < props.length := by
    simp only [Int.ofNat_eq_coe]; omega
  rw [if_pos hcond]
  simp [h, Int.toNat_ofNat]

theorem mapM_pyGet {α : Type} [Inhabited α] (props : List α) :
    ∀ (offs : List Nat), (∀ i ∈ offs, i < props.length) →
      (offs.map Int.ofNat).mapM (pyGet props) =
        some (offs.map (fun i => props.getD i default))
  | [], _ => rfl
  | i :: offs, h => by
    have hi : i < props.length := h i (List.mem_cons_self i offs)
    have hrec := mapM_pyGet props offs (fun j hj => h j (List.mem_cons_of_mem i hj))
    simp only [List.map_cons, List.mapM_cons, hrec, pyGet_nat props i hi]
    rfl

theorem faissSearch_eq_of_le (vecs : List (List Int)) (q : List Int) (k : Nat)
    (h : k ≤ vecs.length) :
    faissSearch vecs q k =
      ((List.insertionSort pairLe (scoreFrom q 0 vecs)).take k).map
        (fun p => Int.ofNat p.1) := by
  unfold faissSearch
  have hlen : k - (scoreFrom q 0 vecs).length = 0 := by
    rw [scoreFrom_length]; omega
  simp [List.length_insertionSort, hlen]

/-! ### C1 — search on an empty index -/

/-- C1 (amended): on a `VectorIndex` with zero stored vectors (and the
correspondingly empty properties list), `search` never returns: faiss
yields only `-1` placeholder indices (or the dimension guard trips),
and `properties[-1]` on the empty list raises `IndexError`.  The
result is `none` (an exception), not an empty sequence. -/
theorem search_empty_index_raises {α : Type} (idx : VectorIndex α)
    (q : List Int) (k : Nat) (hv : idx.vectors = []) (hp : idx.properties = []) :
    idx.search q k = none := by
  obtain ⟨d, vecs, props⟩ := idx
  simp only at hv hp
  subst hv; subst hp
  unfold VectorIndex.search
  split
  · next hcond =>
    obtain ⟨k', rfl⟩ : ∃ k', k = k' + 1 := ⟨k - 1, by omega⟩
    simp only [faissSearch, scoreFrom, List.insertionSort, List.take_nil,
      List.map_nil, List.length_nil, Nat.sub_zero, List.replicate_succ,
      List.nil_append, List.mapM_cons]
    have hnone : pyGet ([] : List α) (-1) = none := by
      simp [pyGet]
    rw [hnone]
    rfl
  · rfl

/-- C1 witness: the amended theorem applied to a concrete empty index. -/
theorem search_empty_index_raises_witness :
    (VectorIndex.init Nat 2).search [0, 0] 2 = none :=
  search_empty_index_raises (VectorIndex.init Nat 2) [0, 0] 2 rfl rfl

/-- C1 counterexample: the claim says `search` on an empty index with
`top_k = 1` returns the empty sequence without failing, i.e.
`some []`; on the concrete empty index of dimension 1 the code instead
raises (`none`). -/
theorem search_empty_index_counterexample :
    (VectorIndex.init Nat 1).search [0] 1 = none ∧
      (VectorIndex.init Nat 1).search [0] 1 ≠ some [] := by
  constructor
  · rfl
  · decide

/-! ### C2 — search result count, offsets, ordering -/

/-- C2 counterexample: an index holding `n = 1` vector, queried with
`top_k = 2`, returns 2 results — more than the index holds.  faiss
pads with `-1` and Python's negative indexing silently resolves it to
the last stored property, duplicating it. -/
theorem search_overcount_counterexample :
    (VectorIndex.mk 1 [[0]] [10] : VectorIndex Nat).search [0] 2 = some [10, 10] ∧
      (VectorIndex.mk 1 [[0]] [10] : VectorIndex Nat).vectors.length = 1 := by
  constructor
  · rfl
  · rfl

/-- C2 (amended): when `1 ≤ top_k ≤ n` (and the query matches the
dimension, with the vectors/properties lengths in agreement), `search`
returns exactly `top_k` properties, each stored at a valid offset,
ordered by ascending squared-Euclidean distance to the query.  (When
`top_k > n ≥ 1` the code instead returns `top_k` results, the excess
slots duplicating the last stored property, as the counterexample
shows.) -/
theorem search_sorted_valid {α : Type} [Inhabited α] (idx : VectorIndex α)
    (q : List Int) (k : Nat) (hq : q.length = idx.dim)
    (hinv : idx.properties.length = idx.vectors.length)
    (hk : 1 ≤ k) (hkn : k ≤ idx.vectors.length) :
    ∃ offs : List Nat,
      offs.length = k ∧
      (∀ i ∈ offs, i < idx.vectors.length) ∧
      idx.search q k = some (offs.map (fun i => idx.properties.getD i default)) ∧
      offs.Pairwise (fun a b =>
        sqDist (idx.vectors.getD a []) q ≤ sqDist (idx.vectors.getD b []) q) := by
  have hslen : (List.insertionSort pairLe (scoreFrom q 0 idx.vectors)).length
      = idx.vectors.length := by
    rw [List.length_insertionSort, scoreFrom_length]
  have hmem : ∀ x ∈ List.insertionSort pairLe (scoreFrom q 0 idx.vectors),
      x.1 < idx.vectors.length ∧ x.2 = sqDist (idx.vectors.getD x.1 []) q := by
    intro x hx
    have hx' := (List.mem_insertionSort pairLe).mp hx
    obtain ⟨h1, h2, h3⟩ := scoreFrom_mem q idx.vectors 0 x hx'
    simp only [Nat.sub_zero] at h2 h3
    exact ⟨h2, h3⟩
  have hmem_take : ∀ x ∈ (List.insertionSort pairLe (scoreFrom q 0 idx.vectors)).take k,
      x.1 < idx.vectors.length ∧ x.2 = sqDist (idx.vectors.getD x.1 []) q :=
    fun x hx => hmem x (List.mem_of_mem_take hx)
  refine ⟨((List.insertionSort pairLe (scoreFrom q 0 idx.vectors)).take k).map Prod.fst,
    ?_, ?_, ?_, ?_⟩
  · rw [List.length_map, List.length_take, hslen]
    omega
  · intro i hi
    obtain ⟨x, hx, rfl⟩ := List.mem_map.mp hi
    exact (hmem_take x hx).1
  · unfold VectorIndex.search
    rw [if_pos ⟨hq, hk⟩, faissSearch_eq_of_le idx.vectors q k hkn]
    have hbound : ∀ i ∈ ((List.insertionSort pairLe (scoreFrom q 0 idx.vectors)).take k).map
        Prod.fst, i < idx.properties.length := by
      intro i hi
      obtain ⟨x, hx, rfl⟩ := List.mem_map.mp hi
      rw [hinv]
      exact (hmem_take x hx).1
    have := mapM_pyGet idx.properties
      (((List.insertionSort pairLe (scoreFrom q 0 idx.vectors)).take k).map Prod.fst) hbound
    simpa [List.map_map, Function.comp, List.map_take] using this
  · have hsorted : (List.insertionSort pairLe (scoreFrom q 0 idx.vectors)).Pairwise pairLe :=
      List.sorted_insertionSort pairLe (scoreFrom q 0 idx.vectors)
    have htake : ((List.insertionSort pairLe (scoreFrom q 0 idx.vectors)).take k).Pairwise
        pairLe :=
      List.Pairwise.sublist (List.take_sublist k _) hsorted
    refine List.pairwise_map.mpr (htake.imp_of_mem ?_)
    intro a b ha hb hab
    rw [← (hmem_take a ha).2, ← (hmem_take b hb).2]
    unfold pairLe at hab
    omega

/-- C2 witness: the amended theorem applied to a concrete two-vector
index with `top_k = 1`. -/
theorem search_sorted_valid_witness :
    ∃ offs : List Nat,
      offs.length = 1 ∧
      (∀ i ∈ offs, i < (VectorIndex.mk 1 [[0], [2]] [10, 20] : VectorIndex Nat).vectors.length) ∧
      (VectorIndex.mk 1 [[0], [2]] [10, 20] : VectorIndex Nat).search [1] 1 =
        some (offs.map (fun i =>
          (VectorIndex.mk 1 [[0], [2]] [10, 20] : VectorIndex Nat).properties.getD i default)) ∧
      offs.Pairwise (fun a b =>
        sqDist ((VectorIndex.mk 1 [[0], [2]] [10, 20] : VectorIndex Nat).vectors.getD a []) [1] ≤
          sqDist ((VectorIndex.mk 1 [[0], [2]] [10, 20] : VectorIndex Nat).vectors.getD b []) [1]) :=
  search_sorted_valid (VectorIndex.mk 1 [[0], [2]] [10, 20]) [1] 1 rfl rfl
    (by decide) (by decide)

/-! ### C3 — add validation -/

/-- C3 counterexample: `add` with one vector but two properties — the
claim demands a `DimensionMismatch` failure since
`len(vectors) ≠ len(props)`, yet the code succeeds, appending both
out of lock-step. -/
theorem add_no_length_check_counterexample :
    (VectorIndex.init Nat 1).add [[5]] [10, 20] =
      some ⟨1, [[5]], [10, 20]⟩ := by
  rfl

/-- C3 (amended): `add(vectors, props)` fails exactly when the vector
batch is empty or some vector's length differs from the index's
dimension (a numpy/faiss shape error, not a dedicated
`DimensionMismatch`); `len(vectors)` is never compared with
`len(props)`.  On success it appends the vectors to the store and the
props to the property list — growing them by `len(vectors)` and
`len(props)` respectively, even when those differ — and returns no
other value. -/
theorem add_characterization {α : Type} (idx : VectorIndex α)
    (vectors : List (List Int)) (props : List α) :
    ((idx.add vectors props).isSome ↔
      vectors ≠ [] ∧ ∀ v ∈ vectors, v.length = idx.dim) ∧
    (∀ idx', idx.add vectors props = some idx' →
      idx' = ⟨idx.dim, idx.vectors ++ vectors, idx.properties ++ props⟩) := by
  unfold VectorIndex.add
  constructor
  · split
    · next hcond => simpa using hcond
    · next hcond => simpa using hcond
  · intro idx' h
    split at h
    · exact (Option.some_inj.mp h).symm
    · exact absurd h (by simp)

/-- C3 witness: the characterization applied to a concrete add whose
argument lengths disagree (1 vector, 2 props), which succeeds. -/
theorem add_characterization_witness :
    ((VectorIndex.init Nat 1).add [[5]] [10, 20]).isSome :=
  (add_characterization (VectorIndex.init Nat 1) [[5]] [10, 20]).1.mpr
    (by constructor <;> decide)

/-! ### C4 — vectors/properties count invariant -/

/-- C4 counterexample: starting from the freshly constructed (balanced)
index, a single `add` of one vector with three properties succeeds and
leaves 1 stored vector against 3 stored properties — the claimed
invariant `len(vectors) == len(properties)` does not survive `add`. -/
theorem counts_invariant_counterexample :
    ((VectorIndex.init Nat 1).add [[7]] [1, 2, 3]).map
      (fun i => (i.vectors.length, i.properties.length)) = some (1, 3) := by
  rfl

/-- C4 (amended): construction yields equal (zero) counts; a
successful `add(V, P)` appends, so prior entries keep their offsets
and `len(vectors)` grows by `len(V)` while `len(properties)` grows by
`len(P)` — the two counts stay equal only when `len(V) = len(P)`,
which is not checked; loading installs the two file payloads as-is, so
the loaded counts are exactly the file counts. -/
theorem counts_after_operations {α : Type} (idx idx' : VectorIndex α)
    (V : List (List Int)) (P : List α) (h : idx.add V P = some idx') :
    ((VectorIndex.init α idx.dim).vectors.length = 0 ∧
      (VectorIndex.init α idx.dim).properties.length = 0) ∧
    idx'.vectors = idx.vectors ++ V ∧
    idx'.properties = idx.properties ++ P ∧
    idx'.vectors.length = idx.vectors.length + V.length ∧
    idx'.properties.length = idx.properties.length + P.length ∧
    (V.length = P.length → idx.vectors.length = idx.properties.length →
      idx'.vectors.length = idx'.properties.length) ∧
    (∀ (f : FaissIndexFile) (p : List α),
      (VectorIndex.from_index_file f p).vectors.length = f.xb.length ∧
      (VectorIndex.from_index_file f p).properties.length = p.length) := by
  have hshape := (add_characterization idx V P).2 idx' h
  subst hshape
  refine ⟨⟨rfl, rfl⟩, rfl, rfl, by simp, by simp, ?_, fun f p => ⟨rfl, rfl⟩⟩
  intro hVP hidx
  simp [hVP, hidx]

/-- C4 witness: the amended theorem applied to a concrete balanced
add. -/
theorem counts_after_operations_witness :
    (((VectorIndex.init Nat 1).vectors.length = 0 ∧
      (VectorIndex.init Nat 1).properties.length = 0) ∧
    (VectorIndex.mk 1 [[3]] [30] : VectorIndex Nat).vectors = [] ++ [[3]] ∧
    (VectorIndex.mk 1 [[3]] [30] : VectorIndex Nat).properties = [] ++ [30] ∧
    (VectorIndex.mk 1 [[3]] [30] : VectorIndex Nat).vectors.length =
      (VectorIndex.init Nat 1).vectors.length + [[3]].length ∧
    (VectorIndex.mk 1 [[3]] [30] : VectorIndex Nat).properties.length =
      (VectorIndex.init Nat 1).properties.length + [30].length ∧
    ([[3]].length = [30].length →
      (VectorIndex.init Nat 1).vectors.length = (VectorIndex.init Nat 1).properties.length →
      (VectorIndex.mk 1 [[3]] [30] : VectorIndex Nat).vectors.length =
        (VectorIndex.mk 1 [[3]] [30] : VectorIndex Nat).properties.length) ∧
    (∀ (f : FaissIndexFile) (p : List Nat),
      (VectorIndex.from_index_file f p).vectors.length = f.xb.length ∧
      (VectorIndex.from_index_file f p).properties.length = p.length)) :=
  counts_after_operations (VectorIndex.init Nat 1)
    (VectorIndex.mk 1 [[3]] [30]) [[3]] [30] rfl

/-! ### C5 — persist/load round trip -/

/-- C5: persisting a `VectorIndex` and loading the produced file pair
reconstructs the index exactly — same dimension (recovered from the
faiss payload), same vectors in the same order, same properties — so
`search` on the loaded index agrees with `search` on the original for
every query and `top_k`.  Serialization itself (faiss payload, pickle)
is modelled as faithful, as the spec assumes. -/
theorem round_trip {α : Type} (idx : VectorIndex α) :
    VectorIndex.from_index_file idx.to_index_file.1 idx.to_index_file.2 = idx ∧
    ∀ (q : List Int) (k : Nat),
      (VectorIndex.from_index_file idx.to_index_file.1 idx.to_index_file.2).search q k =
        idx.search q k := by
  obtain ⟨d, vecs, props⟩ := idx
  exact ⟨rfl, fun q k => rfl⟩

/-! ### C6 — loading persisted files -/

/-- C6 counterexample: a readable faiss payload holding two vectors
paired with a readable properties payload holding one value — not a
matched pair — is loaded without any error: the claim's demanded
`CorruptIndex` failure never happens and the silently returned index
has 2 vectors against 1 property. -/
theorem load_unpaired_counterexample :
    (fromIndexFiles (some ⟨1, [[0], [1]]⟩) (some [42]) : Option (VectorIndex Nat)).map
      (fun i => (i.vectors.length, i.properties.length)) = some (2, 1) := by
  rfl

/-- C6 (amended): loading fails when either file is missing or
unreadable — via the underlying `faiss.read_index`/`open` exception,
not a dedicated `CorruptIndex` error — but performs no pairing check
at all: any two readable payloads are installed unconditionally, even
when their counts disagree. -/
theorem load_no_pairing_check {α : Type} :
    (∀ p : Option (List α), fromIndexFiles none p = none) ∧
    (∀ f : Option FaissIndexFile, fromIndexFiles f (none : Option (List α)) = none) ∧
    (∀ (f : FaissIndexFile) (p : List α),
      fromIndexFiles (some f) (some p) = some ⟨f.d, f.xb, p⟩) := by
  refine ⟨?_, ?_, fun f p => rfl⟩
  · intro p; cases p <;> rfl
  · intro f; cases f <;> rfl

/-! ### C7 — the empty-retrieval-request guard

`rag_answer` (rag_block.py) and `graph_rag` (rag_web_demo.py) both
compute `vector_search`/`graph_search` from the four request flags and
bail out before constructing any pipeline when nothing is requested.
The pipeline operators are modelled as tags; the deferred execution of
a built chain is an abstract collaborator `run`. -/

/-- Operators `rag_answer` registers on the `RAGPipeline` builder. -/
inductive RagOp
  | query_vector_index
  | extract_keywords
  | keywords_to_vid
  | query_graphdb
  | merge_dedup_rerank
  | synthesize_answer
deriving DecidableEq

/-- Outcome of one `rag_answer` call: whether the "Please select at
least one generate mode." warning was issued, the four returned answer
strings, which operators were registered, and whether the pipeline was
run. -/
structure RagAnswerOutcome where
  warned_empty_request : Bool
  answers : List String
  ops : List RagOp
  ran : Bool
deriving DecidableEq

/-- `rag_answer` (rag_block.py lines 57-73), channel selection and
pipeline construction: `vector_search = vector_only or graph_vector`,
`graph_search = graph_only or graph_vector`; with no raw answer and no
channel it warns and returns four empty strings without building or
running anything; otherwise it registers the operators and runs. -/
def rag_answer (run : List RagOp → List String)
    (raw_answer vector_only_answer graph_only_answer graph_vector_answer : Bool) :
    RagAnswerOutcome :=
  let vector_search := vector_only_answer || graph_vector_answer
  let graph_search := graph_only_answer || graph_vector_answer
  if raw_answer = false ∧ vector_search = false ∧ graph_search = false then
    ⟨true, ["", "", "", ""], [], false⟩
  else
    let ops :=
      (if vector_search then [RagOp.query_vector_index] else []) ++
      (if graph_search then
        [RagOp.extract_keywords, RagOp.keywords_to_vid, RagOp.query_graphdb] else []) ++
      [RagOp.merge_dedup_rerank, RagOp.synthesize_answer]
    ⟨false, run ops, ops, true⟩

/-- `graph_rag` (rag_web_demo.py lines 58-74): the same guard and
operator registration as `rag_answer`. -/
def graph_rag (run : List RagOp → List String)
    (raw_answer vector_only_answer graph_only_answer graph_vector_answer : Bool) :
    RagAnswerOutcome :=
  let vector_search := vector_only_answer || graph_vector_answer
  let graph_search := graph_only_answer || graph_vector_answer
  if raw_answer = false ∧ vector_search = false ∧ graph_search = false then
    ⟨true, ["", "", "", ""], [], false⟩
  else
    let ops :=
      (if vector_search then [RagOp.query_vector_index] else []) ++
      (if graph_search then
        [RagOp.extract_keywords, RagOp.keywords_to_vid, RagOp.query_graphdb] else []) ++
      [RagOp.merge_dedup_rerank, RagOp.synthesize_answer]
    ⟨false, run ops, ops, true⟩

/-- C7: with raw answer not requested and no retrieval channel
selected, both entry points warn the user ("Please select at least one
generate mode."), return four empty answers, register no operators and
never run the pipeline — whatever the pipeline runner would do. -/
theorem empty_retrieval_request_guard :
    (∀ run : List RagOp → List String,
      rag_answer run false false false false = ⟨true, ["", "", "", ""], [], false⟩) ∧
    (∀ run : List RagOp → List String,
      graph_rag run false false false false = ⟨true, ["", "", "", ""], [], false⟩) :=
  ⟨fun _ => rfl, fun _ => rfl⟩

/-! ### C8 — reranker degradation is swallowed and surfaced as a flag -/

/-- Rerank method selector, `"bleu"` (local lexical) or `"reranker"`
(remote service), as passed to `rag.merge_dedup_rerank`. -/
inductive RerankMethod
  | bleu
  | reranker
deriving DecidableEq

/-- The context slice the merge-dedup-rerank operator writes: the
merged candidate sequence and the degradation flag. -/
structure RerankOutcome (α : Type) where
  merged_result : List α
  switch_to_bleu : Bool
deriving DecidableEq

/-- Modelled from the spec: the rerank step of the `MergeDedupRerank`
operator (`hugegraph_llm/operators/common_op/merge_dedup_rerank.py`,
which is not under src/ — only its caller rag_block.py is).  Spec
§4.3: with `remote_reranker`, a remote failure (`remote` returning
`none`, i.e. timeout or error response) must not raise: the operator
falls back to `local_lexical` for this call only and records the
degradation as `switch_to_bleu = true`.  The function is total: no
failure outcome exists for it to propagate. -/
def merge_dedup_rerank_step {α : Type} (method : RerankMethod)
    (remote : List α → Option (List α)) (local_lexical : List α → List α)
    (candidates : List α) : RerankOutcome α :=
  match method with
  | RerankMethod.bleu => ⟨local_lexical candidates, false⟩
  | RerankMethod.reranker =>
    match remote candidates with
    | some reranked => ⟨reranked, false⟩
    | none => ⟨local_lexical candidates, true⟩

/-- What the caller hands back to the user for one request: the
degradation warning, the normal result payload, and whether the
request aborted. -/
structure RagCallerResult (α : Type) where
  degraded_warning : Bool
  result : List α
  aborted : Bool
deriving DecidableEq

/-- `rag_answer`'s result handling (rag_block.py lines 72-81): the
final context's `switch_to_bleu` flag becomes a `gr.Warning` ("Online
reranker fails, automatically switches to local bleu rerank.") and the
answers are returned normally; no exception path is taken for a
degraded rerank. -/
def surface_rag_context {α : Type} (ctx : RerankOutcome α) : RagCallerResult α :=
  ⟨ctx.switch_to_bleu, ctx.merged_result, false⟩

/-- C8: when the remote reranker fails on a call, the merge step
completes with the local lexical ordering for that call, sets
`switch_to_bleu = true`, and the caller surfaces exactly that flag as
a warning alongside the normal (non-aborted) result; a later call
whose remote succeeds is reranked remotely with the flag off — the
fallback is per-call. -/
theorem reranker_failure_fallback {α : Type}
    (remote : List α → Option (List α)) (local_lexical : List α → List α)
    (candidates : List α) (hfail : remote candidates = none) :
    merge_dedup_rerank_step RerankMethod.reranker remote local_lexical candidates =
      ⟨local_lexical candidates, true⟩ ∧
    surface_rag_context
        (merge_dedup_rerank_step RerankMethod.reranker remote local_lexical candidates) =
      ⟨true, local_lexical candidates, false⟩ ∧
    (∀ (remote2 : List α → Option (List α)) (reranked2 : List α),
      remote2 candidates = some reranked2 →
      merge_dedup_rerank_step RerankMethod.reranker remote2 local_lexical candidates =
        ⟨reranked2, false⟩) := by
  refine ⟨?_, ?_, ?_⟩
  · simp [merge_dedup_rerank_step, hfail]
  · simp [merge_dedup_rerank_step, hfail, surface_rag_context]
  · intro remote2 reranked2 h2
    simp [merge_dedup_rerank_step, h2]

/-- C8 witness: a concrete failing remote reranker over two
candidates, with the identity local rerank. -/
theorem reranker_failure_fallback_witness :
    merge_dedup_rerank_step RerankMethod.reranker (fun _ => (none : Option (List Nat)))
        (fun c => c) [1, 2] = ⟨[1, 2], true⟩ ∧
    surface_rag_context
        (merge_dedup_rerank_step RerankMethod.reranker (fun _ => (none : Option (List Nat)))
          (fun c => c) [1, 2]) = ⟨true, [1, 2], false⟩ ∧
    (∀ (remote2 : List Nat → Option (List Nat)) (reranked2 : List Nat),
      remote2 [1, 2] = some reranked2 →
      merge_dedup_rerank_step RerankMethod.reranker remote2 (fun c => c) [1, 2] =
        ⟨reranked2, false⟩) :=
  reranker_failure_fallback (fun _ => none) (fun c => c) [1, 2] rfl

/-! ### C9 — the build-mode policy table -/

/-- The four build modes offered by the radio button
(`"Test Mode"`, `"Import Mode"`, `"Clear and Import"`,
`"Rebuild Vector"`). -/
inductive BuildMode
  | test_mode
  | import_mode
  | clear_and_import
  | rebuild_vector
deriving DecidableEq

/-- The side-effecting steps `build_kg` can trigger, in source order:
the chunk split, the extraction or graph fetch, the two clears (direct
calls), and the deferred builder operations. -/
inductive BuildOp
  | chunk_split
  | fetch_graph_data
  | extract_info
  | clean_vector_index
  | build_vector_index
  | clean_hg_data
  | commit_to_hugegraph
  | build_vertex_id_semantic_index
deriving DecidableEq

/-- `build_kg` (rag_web_demo.py lines 119-136): the steps selected for
a given build mode, transcribing the source's condition structure
statement by statement. -/
def build_kg_effects (m : BuildMode) : List BuildOp :=
  [BuildOp.chunk_split] ++
  (if m = BuildMode.rebuild_vector then [BuildOp.fetch_graph_data]
    else [BuildOp.extract_info]) ++
  (if m ≠ BuildMode.test_mode then
    (if m = BuildMode.clear_and_import ∨ m = BuildMode.rebuild_vector then
      [BuildOp.clean_vector_index] else []) ++
    [BuildOp.build_vector_index]
  else []) ++
  (if m = BuildMode.clear_and_import then [BuildOp.clean_hg_data] else []) ++
  (if m = BuildMode.clear_and_import ∨ m = BuildMode.import_mode then
    [BuildOp.commit_to_hugegraph] else []) ++
  (if m ≠ BuildMode.test_mode then [BuildOp.build_vertex_id_semantic_index] else [])

/-- C9: the policy table.  Test Mode only splits and extracts (no
index or graph mutation); Import Mode extracts, builds the vector and
vertex-id indices and commits, clearing nothing; Clear and Import
additionally clears the vector index and the graph data; Rebuild
Vector skips extraction and commit, clears the vector index and
rebuilds it (plus the vertex-id index) from the fetched graph data.
The trailing membership facts spell out the claimed absences. -/
theorem build_mode_policy :
    build_kg_effects BuildMode.test_mode =
      [BuildOp.chunk_split, BuildOp.extract_info] ∧
    build_kg_effects BuildMode.import_mode =
      [BuildOp.chunk_split, BuildOp.extract_info, BuildOp.build_vector_index,
        BuildOp.commit_to_hugegraph, BuildOp.build_vertex_id_semantic_index] ∧
    build_kg_effects BuildMode.clear_and_import =
      [BuildOp.chunk_split, BuildOp.extract_info, BuildOp.clean_vector_index,
        BuildOp.build_vector_index, BuildOp.clean_hg_data, BuildOp.commit_to_hugegraph,
        BuildOp.build_vertex_id_semantic_index] ∧
    build_kg_effects BuildMode.rebuild_vector =
      [BuildOp.chunk_split, BuildOp.fetch_graph_data, BuildOp.clean_vector_index,
        BuildOp.build_vector_index, BuildOp.build_vertex_id_semantic_index] ∧
    BuildOp.build_vector_index ∉ build_kg_effects BuildMode.test_mode ∧
    BuildOp.commit_to_hugegraph ∉ build_kg_effects BuildMode.test_mode ∧
    BuildOp.clean_vector_index ∉ build_kg_effects BuildMode.import_mode ∧
    BuildOp.clean_hg_data ∉ build_kg_effects BuildMode.import_mode ∧
    BuildOp.extract_info ∉ build_kg_effects BuildMode.rebuild_vector ∧
    BuildOp.commit_to_hugegraph ∉ build_kg_effects BuildMode.rebuild_vector ∧
    BuildOp.clean_hg_data ∉ build_kg_effects BuildMode.rebuild_vector := by
  decide

/-! ### C10 — schema-mode extraction and the long-name filter

`InfoExtract` (info_extract.py).  The LLM call and the regex
`re.findall` over its free-text output are collaborators; a chunk's
contribution is modelled as the list of already-stripped
`(s, p, o, label)` 4-tuples the regex yields.  Everything after the
regex — `extract_triples_by_regex_with_schema` and
`_filter_long_name` — is transcribed from the source. -/

/-- A vertex dict built by schema-mode extraction:
`{"id","name","label","properties"}`. -/
structure ExtractVertex where
  id : String
  name : String
  label : String
  properties : List (String × String)
deriving DecidableEq

/-- An edge dict built by schema-mode extraction:
`{"start","end","type","properties"}`. -/
structure ExtractEdge where
  start : String
  «end» : String
  type : String
  properties : List (String × String)
deriving DecidableEq

/-- The schema-mode result dict: `{"triples","vertices","edges"}` (the
`schema` entry is the constant input and is omitted).  A source quirk:
the appended "triples" are tuples of singleton sets `({s},{p},{o})`;
they are modelled by their single members. -/
structure GraphResult where
  triples : List (String × String × String)
  vertices : List ExtractVertex
  edges : List ExtractEdge
deriving DecidableEq

/-- One entry of `schema["vertices"]`. -/
structure SchemaVertex where
  vertex_label : String
  properties : List String
deriving DecidableEq

/-- One entry of `schema["edges"]`. -/
structure SchemaEdge where
  edge_label : String
  source_vertex_label : String
  target_vertex_label : String
deriving DecidableEq

/-- The schema passed to schema-mode extraction. -/
structure Schema where
  vertices : List SchemaVertex
  edges : List SchemaEdge
deriving DecidableEq

/-- The mutable state of `extract_triples_by_regex_with_schema`: the
insertion-ordered `vertices_dict` plus the growing triple and edge
lists. -/
structure ExtractState where
  vertices_dict : List ExtractVertex
  triples : List (String × String × String)
  edges : List ExtractEdge
deriving DecidableEq

/-- Python dict update `vertices_dict[id]["properties"].update({p: o})`
on an insertion-ordered property dict: replace in place or append. -/
def insertProp (props : List (String × String)) (p o : String) :
    List (String × String) :=
  if props.any (fun q => q.1 = p) then
    props.map (fun q => if q.1 = p then (p, o) else q)
  else props ++ [(p, o)]

/-- The body of the `for match in matches` loop of
`extract_triples_by_regex_with_schema`: the first schema vertex whose
label matches and carries the property updates/creates the vertex
entry; the first schema edge whose label matches appends a triple and
an edge, creating missing endpoint vertices. -/
def processMatch (schema : Schema) (st : ExtractState)
    (m : String × String × String × String) : ExtractState :=
  let s := m.1
  let p := m.2.1
  let o := m.2.2.1
  let label := m.2.2.2
  let st1 :=
    match schema.vertices.find?
        (fun vertex => vertex.vertex_label = label && vertex.properties.contains p) with
    | some _ =>
      let id := label ++ "-" ++ s
      if st.vertices_dict.any (fun v => v.id = id) then
        { st with vertices_dict :=
            st.vertices_dict.map (fun v =>
              if v.id = id then { v with properties := insertProp v.properties p o }
              else v) }
      else
        { st with vertices_dict := st.vertices_dict ++ [⟨id, s, label, [(p, o)]⟩] }
    | none => st
  match schema.edges.find? (fun edge => edge.edge_label = label) with
  | some edge =>
    let source_id := edge.source_vertex_label ++ "-" ++ s
    let target_id := edge.target_vertex_label ++ "-" ++ o
    let d1 :=
      if st1.vertices_dict.any (fun v => v.id = source_id) then st1.vertices_dict
      else st1.vertices_dict ++ [⟨source_id, s, edge.source_vertex_label, []⟩]
    let d2 :=
      if d1.any (fun v => v.id = target_id) then d1
      else d1 ++ [⟨target_id, o, edge.target_vertex_label, []⟩]
    { vertices_dict := d2,
      triples := st1.triples ++ [(s, p, o)],
      edges := st1.edges ++ [⟨source_id, target_id, label, []⟩] }
  | none => st1

/-- `extract_triples_by_regex_with_schema(schema, text, graph)` for one
chunk, over the stripped 4-tuples the regex finds in the LLM output. -/
def extract_triples_by_regex_with_schema (schema : Schema)
    (match_list : List (String × String × String × String)) (graph : GraphResult) :
    GraphResult :=
  let st := match_list.foldl (processMatch schema) ⟨graph.vertices, graph.triples, graph.edges⟩
  ⟨st.triples, st.vertices_dict, st.edges⟩

/-- `InfoExtract._filter_long_name`: keep vertices whose id has fewer
than 120 characters and edges whose start and end ids both do. -/
def filter_long_name (graph : GraphResult) : GraphResult :=
  { graph with
    vertices := graph.vertices.filter (fun vertex => vertex.id.length < 120),
    edges := graph.edges.filter (fun edge =>
      edge.start.length < 120 && edge.«end».length < 120) }

/-- `InfoExtract.run` with a schema: start from the empty result, fold
each chunk's extraction into it, and return the result passed through
`_filter_long_name`. -/
def InfoExtract.run_with_schema (schema : Schema)
    (chunk_matches : List (List (String × String × String × String))) : GraphResult :=
  filter_long_name
    (chunk_matches.foldl
      (fun graph ms => extract_triples_by_regex_with_schema schema ms graph)
      ⟨[], [], []⟩)

/-- C10: every vertex of a schema-mode `InfoExtract.run` result has an
id shorter than 120 characters, and every edge has both endpoint ids
shorter than 120 characters — `_filter_long_name` drops all others
from the output. -/
theorem run_with_schema_short_names (schema : Schema)
    (chunk_matches : List (List (String × String × String × String))) :
    (∀ v ∈ (InfoExtract.run_with_schema schema chunk_matches).vertices,
      v.id.length < 120) ∧
    (∀ e ∈ (InfoExtract.run_with_schema schema chunk_matches).edges,
      e.start.length < 120 ∧ e.«end».length < 120) := by
  constructor
  · intro v hv
    simp only [InfoExtract.run_with_schema, filter_long_name] at hv
    have h := (List.mem_filter.mp hv).2
    simpa using h
  · intro e he
    simp only [InfoExtract.run_with_schema, filter_long_name] at he
    have h := (List.mem_filter.mp he).2
    simp only [Bool.and_eq_true, decide_eq_true_eq] at h
    exact h

/-- C10 witness: a concrete one-edge schema and one extracted match;
the produced endpoint vertices pass through the filter and the bound
holds for one of them and for the produced edge. -/
theorem run_with_schema_short_names_witness :
    ((⟨"person-a", "a", "person", []⟩ : ExtractVertex).id.length < 120) ∧
    ((⟨"person-a", "person-b", "knows", []⟩ : ExtractEdge).start.length < 120 ∧
      (⟨"person-a", "person-b", "knows", []⟩ : ExtractEdge).«end».length < 120) :=
  ⟨(run_with_schema_short_names
      ⟨[⟨"person", ["age"]⟩], [⟨"knows", "person", "person"⟩]⟩
      [[("a", "likes", "b", "knows")]]).1
    ⟨"person-a", "a", "person", []⟩ (by decide),
   (run_with_schema_short_names
      ⟨[⟨"person", ["age"]⟩], [⟨"knows", "person", "person"⟩]⟩
      [[("a", "likes", "b", "knows")]]).2
    ⟨"person-a", "person-b", "knows", []⟩ (by decide)⟩
